import Mathlib

/-!
Verification of the air-quality-index backend (`src/backend/main.py`).

The ingestion pipeline of `main.py` is embedded shallowly:

* A decoded JSON object (Python `dict` with numeric values) is an
  association list `Record` in insertion order; `getKey`, `setKey` and
  `eraseKey` model `dict.get`, item assignment and `dict.pop`.
* Python floats are modelled as rationals `ℚ`.
* The serial port is modelled as an optional stream (list) of per-call
  `readline` outcomes `LineRead`: the external serial/UTF-8/JSON layers
  are abstracted into which failure stage they produce, while a
  successfully parsed object is carried explicitly.  Each call to
  `read_arduino_data` consumes the head of the stream.
* The pickled regression model is an opaque `Model`: its recorded
  feature names plus an uninterpreted prediction function.
* Endpoint failures (`HTTPException` with its detail string) are the
  constructors of `ApiError`.
-/

namespace AirQuality

/-- A decoded sensor record: Python `dict` from field name to numeric
value, kept as an association list in insertion order. -/
abbrev Record := List (String × ℚ)

/-- Python `data.get(k)`: value of the first entry with key `k`. -/
def getKey (k : String) : Record → Option ℚ
  | [] => none
  | (k', v) :: rest => if k' = k then some v else getKey k rest

/-- Python `data[k] = v`: overwrite the entry with key `k` in place if it
exists, otherwise append a new entry at the end. -/
def setKey (k : String) (v : ℚ) : Record → Record
  | [] => [(k, v)]
  | (k', v') :: rest => if k' = k then (k, v) :: rest else (k', v') :: setKey k v rest

/-- Python `data.pop(k)` (the removal part): drop the entries with key `k`
(a Python dict holds at most one). -/
def eraseKey (k : String) : Record → Record
  | [] => []
  | (k', v') :: rest => if k' = k then eraseKey k rest else (k', v') :: eraseKey k rest

/-- Configuration `REQUIRED_FEATURES = ["PM2.5", "PM10", "NH3", "CO"]` from `main.py`. -/
def REQUIRED_FEATURES : List String := ["PM2.5", "PM10", "NH3", "CO"]

/-- The `ranges` table of `validate_sensor_data`, in source order. -/
def RANGES : List (String × ℚ × ℚ) :=
  [("PM2.5", 0, 1000), ("PM10", 0, 1000), ("CO", 0, 1000), ("NH3", 0, 500),
   ("temp", -40, 85), ("hum", 0, 100)]

/-- One iteration of the loop body of `validate_sensor_data` for a range
entry `(field, min, max)`:
`value = data.get(field); if value is None and field in REQUIRED_FEATURES:
return False; if value is not None and not (min <= value <= max): return
False`. -/
def checkField (data : Record) (e : String × ℚ × ℚ) : Bool :=
  match getKey e.1 data with
  | none => !(REQUIRED_FEATURES.contains e.1)
  | some v => decide (e.2.1 ≤ v ∧ v ≤ e.2.2)

/-- Function `validate_sensor_data` from `main.py`: every range-table entry must
pass its check. -/
def validate_sensor_data (data : Record) : Bool :=
  RANGES.all (checkField data)

/-- Function `get_aqi_status` from `main.py`. -/
def get_aqi_status (aqi : ℚ) : String :=
  if aqi ≤ 50 then "Good"
  else if aqi ≤ 100 then "Moderate"
  else if aqi ≤ 150 then "Unhealthy for Sensitive Groups"
  else if aqi ≤ 200 then "Unhealthy"
  else if aqi ≤ 300 then "Very Unhealthy"
  else "Hazardous"

/-- Outcome of one `ser.readline().decode("utf-8").strip()` followed by
`json.loads`: the serial wait may time out (empty line, hence a JSON
failure), the bytes may not be UTF-8 (`UnicodeDecodeError`), the text may
not be JSON (`json.JSONDecodeError`), the JSON value may not be an object
(a later `TypeError`), or a JSON object is obtained. -/
inductive LineRead
  | timeout
  | decodeError
  | malformed
  | nonObject
  | parsed (data : Record)
deriving DecidableEq

/-- The `PM25 → PM2.5` key rename of `read_arduino_data`:
`if "PM25" in data: data["PM2.5"] = data.pop("PM25")`. -/
def rename_pm25 (data : Record) : Record :=
  match getKey "PM25" data with
  | none => data
  | some v => setKey "PM2.5" v (eraseKey "PM25" data)

/-- Function `read_arduino_data` from `main.py` over a serial stream: `None`
connection short-circuits; otherwise the head of the stream is consumed,
every failure stage (and a record failing validation) yields `none`, and
a parsed record is renamed then validated.  Returns the result together
with the remaining stream. -/
def read_arduino_data (ser : Option (List LineRead)) :
    Option Record × Option (List LineRead) :=
  match ser with
  | none => (none, none)
  | some [] => (none, some [])
  | some (l :: rest) =>
    let result := match l with
      | .parsed data =>
        let data := rename_pm25 data
        if validate_sensor_data data then some data else none
      | _ => none
    (result, some rest)

/-- The loaded regression artifact: its recorded
`feature_names_in_` and its (uninterpreted) `predict` on an ordered
feature vector. -/
structure Model where
  feature_names_in : List String
  predict : List ℚ → ℚ

/-- The model-loading part of `lifespan`: a missing/broken artifact gives
`model = None`; a loaded model whose `feature_names_in_` differ from
`REQUIRED_FEATURES` raises, is caught, and also gives `model = None`. -/
def load_model (artifact : Option Model) : Option Model :=
  match artifact with
  | none => none
  | some m => if m.feature_names_in = REQUIRED_FEATURES then some m else none

/-- The `/api/health` response body. -/
structure Health where
  serial_connected : Bool
  model_loaded : Bool
  required_features : List String
deriving DecidableEq

/-- Function `health_check` from `main.py`. -/
def health_check (ser : Option (List LineRead)) (model : Option Model) : Health :=
  { serial_connected := ser.isSome
    model_loaded := model.isSome
    required_features := REQUIRED_FEATURES }

/-- The `HTTPException` outcomes of `get_aqi_prediction`:
`"Failed to read sensor data"`; the `"ML model not loaded"` exception
(re-wrapped by the handler as `"Prediction error: …"`); any other
exception wrapped as `"Prediction error: …"` (e.g. a `KeyError` while
building `input_data`). -/
inductive ApiError
  | sensorReadFailed
  | modelUnavailable
  | predictionError
deriving DecidableEq

/-- The `/api/aqi` success response body: `sensor_data` is the echo dict
`{**input_data, "temp": …, "hum": …}`, whose `temp`/`hum` values are
`None` (here `none`) when absent from the record. -/
structure Response where
  aqi : ℚ
  status : String
  sensor_data : List (String × Option ℚ)
deriving DecidableEq

/-- Python `round(x, 2)`: scale by 100, round half to even, unscale. -/
def round2 (x : ℚ) : ℚ :=
  let y := x * 100
  let f : ℤ := ⌊y⌋
  (if y - f < 1/2 then (f : ℚ)
   else if 1/2 < y - f then (f : ℚ) + 1
   else if f % 2 = 0 then (f : ℚ) else (f : ℚ) + 1) / 100

/-- The dict comprehension
`{feature: sensor_data[feature] for feature in REQUIRED_FEATURES}` of
`get_aqi_prediction`, as the ordered value vector: `none` when some
feature is absent (Python raises `KeyError`). -/
def input_data (data : Record) : List String → Option (List ℚ)
  | [] => some []
  | f :: rest =>
    match getKey f data with
    | none => none
    | some v => (input_data data rest).map (fun vs => v :: vs)

/-- Function `get_aqi_prediction` from `main.py`: read the sensor (failure →
`sensorReadFailed`); build `input_data` over `REQUIRED_FEATURES` (a
missing key would be a `KeyError`, caught as `predictionError`); if the
model is `None` raise (caught and re-wrapped) `modelUnavailable`;
otherwise predict once and assemble the response. -/
def get_aqi_prediction (model : Option Model) (ser : Option (List LineRead)) :
    Except ApiError Response × Option (List LineRead) :=
  let r := read_arduino_data ser
  match r.1 with
  | none => (.error .sensorReadFailed, r.2)
  | some data =>
    match input_data data REQUIRED_FEATURES with
    | none => (.error .predictionError, r.2)
    | some vec =>
      match model with
      | none => (.error .modelUnavailable, r.2)
      | some m =>
        let prediction := m.predict vec
        (.ok { aqi := round2 prediction
               status := get_aqi_status prediction
               sensor_data :=
                 (REQUIRED_FEATURES.zip vec).map (fun p => (p.1, some p.2))
                   ++ [("temp", getKey "temp" data), ("hum", getKey "hum" data)] },
         r.2)

/-- The read path fails on this serial state: no open connection, or the
next `readline` outcome is a failure stage, or the parsed record fails
validation (an exhausted stream behaves as a timeout). -/
def lineFails : LineRead → Bool
  | .parsed data => !(validate_sensor_data (rename_pm25 data))
  | _ => true

/-- Decides whether `read_arduino_data` fails on this serial state. -/
def readPathFails : Option (List LineRead) → Bool
  | none => true
  | some [] => true
  | some (l :: _) => lineFails l

/-- Rank of a status bucket in the order Good < Moderate < Unhealthy for
Sensitive Groups < Unhealthy < Very Unhealthy < Hazardous. -/
def statusLevel (s : String) : Nat :=
  if s = "Good" then 0
  else if s = "Moderate" then 1
  else if s = "Unhealthy for Sensitive Groups" then 2
  else if s = "Unhealthy" then 3
  else if s = "Very Unhealthy" then 4
  else 5

/-- Number of entries of a record carrying a given key. -/
def countKey (k : String) : Record → Nat
  | [] => 0
  | (k', _) :: rest => (if k' = k then 1 else 0) + countKey k rest

/-- A stub model used for concrete runs: any feature vector predicts 42. -/
def stubModel : Model := ⟨REQUIRED_FEATURES, fun _ => 42⟩

/-- A model whose recorded feature names do not match
`REQUIRED_FEATURES`, for concrete startup-mismatch runs. -/
def badModel : Model := ⟨["PM2.5"], fun _ => 0⟩

instance : DecidableEq (Except ApiError Response)
  | .error a, .error b =>
    if h : a = b then .isTrue (by rw [h]) else .isFalse (by simp [h])
  | .error _, .ok _ => .isFalse (by simp)
  | .ok _, .error _ => .isFalse (by simp)
  | .ok a, .ok b =>
    if h : a = b then .isTrue (by rw [h]) else .isFalse (by simp [h])

/-! ### Association-list lemmas -/

theorem getKey_setKey_self (k : String) (v : ℚ) (r : Record) :
    getKey k (setKey k v r) = some v := by
  induction r with
  | nil => simp [setKey, getKey]
  | cons p rest ih =>
    obtain ⟨k', v'⟩ := p
    by_cases h : k' = k <;> simp [setKey, getKey, h, ih]

theorem getKey_setKey_ne (k j : String) (v : ℚ) (r : Record) (h : j ≠ k) :
    getKey j (setKey k v r) = getKey j r := by
  induction r with
  | nil => simp [setKey, getKey, Ne.symm h]
  | cons p rest ih =>
    obtain ⟨k', v'⟩ := p
    by_cases hk : k' = k
    · subst hk
      simp [setKey, getKey, Ne.symm h]
    · by_cases hj : k' = j <;> simp [setKey, getKey, hk, hj, h, ih]

theorem getKey_eraseKey_self (k : String) (r : Record) :
    getKey k (eraseKey k r) = none := by
  induction r with
  | nil => simp [eraseKey, getKey]
  | cons p rest ih =>
    obtain ⟨k', v'⟩ := p
    by_cases h : k' = k <;> simp [eraseKey, getKey, h, ih]

theorem getKey_eraseKey_ne (k j : String) (r : Record) (h : j ≠ k) :
    getKey j (eraseKey k r) = getKey j r := by
  induction r with
  | nil => simp [eraseKey, getKey]
  | cons p rest ih =>
    obtain ⟨k', v'⟩ := p
    by_cases hk : k' = k
    · subst hk
      simp [eraseKey, getKey, Ne.symm h, ih]
    · by_cases hj : k' = j <;> simp [eraseKey, getKey, hk, hj, h, ih]

theorem countKey_eraseKey_ne (k j : String) (r : Record) (h : j ≠ k) :
    countKey j (eraseKey k r) = countKey j r := by
  induction r with
  | nil => simp [eraseKey, countKey]
  | cons p rest ih =>
    obtain ⟨k', v'⟩ := p
    by_cases hk : k' = k
    · subst hk
      simp [eraseKey, countKey, Ne.symm h, ih]
    · simp [eraseKey, countKey, hk, ih]

theorem countKey_setKey_self (k : String) (v : ℚ) (r : Record) :
    countKey k (setKey k v r) = max 1 (countKey k r) := by
  induction r with
  | nil => simp [setKey, countKey]
  | cons p rest ih =>
    obtain ⟨k', v'⟩ := p
    by_cases hk : k' = k
    · subst hk
      simp [setKey, countKey]
      try omega
    · simp [setKey, countKey, hk, ih]

theorem countKey_eq_zero_of_not_mem (k : String) (r : Record)
    (h : k ∉ r.map Prod.fst) : countKey k r = 0 := by
  induction r with
  | nil => simp [countKey]
  | cons p rest ih =>
    obtain ⟨k', v'⟩ := p
    simp only [List.map_cons, List.mem_cons] at h
    push_neg at h
    simp [countKey, Ne.symm h.1, ih h.2]

theorem countKey_le_one_of_nodup (k : String) (r : Record)
    (h : (r.map Prod.fst).Nodup) : countKey k r ≤ 1 := by
  induction r with
  | nil => simp [countKey]
  | cons p rest ih =>
    obtain ⟨k', v'⟩ := p
    simp only [List.map_cons, List.nodup_cons] at h
    by_cases hk : k' = k
    · subst hk
      simp [countKey, countKey_eq_zero_of_not_mem _ _ h.1]
    · simpa [countKey, hk] using ih h.2

theorem checkField_setKey_self (f : String) (v : ℚ) (b : ℚ × ℚ) (r : Record) :
    checkField (setKey f v r) (f, b) = decide (b.1 ≤ v ∧ v ≤ b.2) := by
  unfold checkField
  rw [getKey_setKey_self]

theorem checkField_setKey_ne (f k : String) (v : ℚ) (b : ℚ × ℚ) (r : Record)
    (h : k ≠ f) : checkField (setKey f v r) (k, b) = checkField r (k, b) := by
  unfold checkField
  rw [getKey_setKey_ne _ _ _ _ h]

theorem checkField_eraseKey_ne (k j : String) (b : ℚ × ℚ) (r : Record)
    (h : j ≠ k) : checkField (eraseKey k r) (j, b) = checkField r (j, b) := by
  unfold checkField
  rw [getKey_eraseKey_ne _ _ _ h]

theorem error_of_readPathFails (model : Option Model) (ser : Option (List LineRead))
    (h : readPathFails ser = true) :
    (get_aqi_prediction model ser).1 = Except.error ApiError.sensorReadFailed := by
  rcases ser with _ | ls
  · rfl
  · rcases ls with _ | ⟨l, rest⟩
    · rfl
    · cases l with
      | parsed data =>
        simp only [readPathFails, lineFails, Bool.not_eq_true'] at h
        simp [get_aqi_prediction, read_arduino_data, h]
      | timeout => rfl
      | decodeError => rfl
      | malformed => rfl
      | nonObject => rfl

theorem required_present_of_valid (r : Record) (h : validate_sensor_data r = true) :
    ∀ f ∈ REQUIRED_FEATURES, (getKey f r).isSome := by
  have h' := h
  simp only [validate_sensor_data, RANGES, List.all_cons, List.all_nil,
    Bool.and_eq_true, Bool.and_true] at h'
  intro f hf
  fin_cases hf
  · cases hk : getKey "PM2.5" r with
    | some v => simp
    | none =>
      have h1 := h'.1
      unfold checkField at h1
      simp [hk, REQUIRED_FEATURES] at h1
  · cases hk : getKey "PM10" r with
    | some v => simp
    | none =>
      have h1 := h'.2.1
      unfold checkField at h1
      simp [hk, REQUIRED_FEATURES] at h1
  · cases hk : getKey "NH3" r with
    | some v => simp
    | none =>
      have h1 := h'.2.2.2.1
      unfold checkField at h1
      simp [hk, REQUIRED_FEATURES] at h1
  · cases hk : getKey "CO" r with
    | some v => simp
    | none =>
      have h1 := h'.2.2.1
      unfold checkField at h1
      simp [hk, REQUIRED_FEATURES] at h1

theorem input_data_isSome (data : Record) (l : List String)
    (h : ∀ f ∈ l, (getKey f data).isSome) : ∃ vec, input_data data l = some vec := by
  induction l with
  | nil => exact ⟨[], rfl⟩
  | cons f rest ih =>
    obtain ⟨y, hy⟩ := Option.isSome_iff_exists.mp (h f (List.mem_cons_self f rest))
    obtain ⟨ys, hys⟩ := ih fun g hg => h g (List.mem_cons_of_mem _ hg)
    exact ⟨y :: ys, by simp [input_data, hy, hys]⟩

theorem model_none_unavailable (ser : Option (List LineRead))
    (h : readPathFails ser = false) :
    (get_aqi_prediction none ser).1 = Except.error ApiError.modelUnavailable := by
  rcases ser with _ | ls
  · simp [readPathFails] at h
  · rcases ls with _ | ⟨l, rest⟩
    · simp [readPathFails] at h
    · cases l with
      | parsed data =>
        have hval : validate_sensor_data (rename_pm25 data) = true := by
          simpa [readPathFails, lineFails] using h
        obtain ⟨vec, hvec⟩ :=
          input_data_isSome (rename_pm25 data) REQUIRED_FEATURES
            (required_present_of_valid _ hval)
        simp [get_aqi_prediction, read_arduino_data, hval, hvec]
      | timeout => simp [readPathFails, lineFails] at h
      | decodeError => simp [readPathFails, lineFails] at h
      | malformed => simp [readPathFails, lineFails] at h
      | nonObject => simp [readPathFails, lineFails] at h

/-! ### Claim theorems -/

/-- C2: `get_aqi_status` is a total deterministic function with inclusive
upper thresholds: it returns "Good" iff aqi ≤ 50, "Moderate" iff
50 < aqi ≤ 100, "Unhealthy for Sensitive Groups" iff 100 < aqi ≤ 150,
"Unhealthy" iff 150 < aqi ≤ 200, "Very Unhealthy" iff 200 < aqi ≤ 300,
and "Hazardous" iff aqi > 300. -/
theorem get_aqi_status_spec (aqi : ℚ) :
    (get_aqi_status aqi = "Good" ↔ aqi ≤ 50) ∧
    (get_aqi_status aqi = "Moderate" ↔ 50 < aqi ∧ aqi ≤ 100) ∧
    (get_aqi_status aqi = "Unhealthy for Sensitive Groups" ↔ 100 < aqi ∧ aqi ≤ 150) ∧
    (get_aqi_status aqi = "Unhealthy" ↔ 150 < aqi ∧ aqi ≤ 200) ∧
    (get_aqi_status aqi = "Very Unhealthy" ↔ 200 < aqi ∧ aqi ≤ 300) ∧
    (get_aqi_status aqi = "Hazardous" ↔ 300 < aqi) := by
  unfold get_aqi_status
  split_ifs with h1 h2 h3 h4 h5 <;>
    refine ⟨?_, ?_, ?_, ?_, ?_, ?_⟩ <;>
    simp_all <;>
    first
      | linarith
      | (intro h; linarith)

/-- C10: the status classifier is monotone: a ≤ b implies the bucket for a
is at most the bucket for b in the order Good < Moderate < Unhealthy for
Sensitive Groups < Unhealthy < Very Unhealthy < Hazardous. -/
theorem get_aqi_status_monotone (a b : ℚ) (hab : a ≤ b) :
    statusLevel (get_aqi_status a) ≤ statusLevel (get_aqi_status b) := by
  unfold get_aqi_status
  split_ifs <;> simp [statusLevel] <;> linarith

/-- Witness for C10 at a = 40, b = 200. -/
theorem get_aqi_status_monotone_witness :
    statusLevel (get_aqi_status 40) ≤ statusLevel (get_aqi_status 200) :=
  get_aqi_status_monotone 40 200 (by norm_num)

/-- C5: on the record {"PM25": 40, "PM10": 60, "NH3": 10, "CO": 2} the
decoder rename yields a record with key "PM2.5" = 40, no "PM25" key, and
all other fields unchanged (the full resulting record is computed,
showing no other transformation happened). -/
theorem rename_pm25_example :
    rename_pm25 [("PM25", 40), ("PM10", 60), ("NH3", 10), ("CO", 2)] =
      [("PM10", 60), ("NH3", 10), ("CO", 2), ("PM2.5", 40)] ∧
    getKey "PM2.5" (rename_pm25 [("PM25", 40), ("PM10", 60), ("NH3", 10), ("CO", 2)]) =
      some 40 ∧
    getKey "PM25" (rename_pm25 [("PM25", 40), ("PM10", 60), ("NH3", 10), ("CO", 2)]) =
      none := by
  decide

/-- C8: per invocation of `read_arduino_data` with an open connection,
exactly one line is consumed from the stream (the remaining stream is the
tail), whatever the outcome; with no open connection no read happens.
There is no retry loop. -/
theorem read_consumes_one_line :
    (∀ l rest, (read_arduino_data (some (l :: rest))).2 = some rest) ∧
    (read_arduino_data (some [])).2 = some [] ∧
    (read_arduino_data none).2 = none :=
  ⟨fun _ _ => rfl, rfl, rfl⟩

/-- C9: when a decoded object (with Python-dict-unique keys) holds both
the alias key "PM25" (value v) and possibly the canonical key "PM2.5",
the rename leaves a record whose single "PM2.5" entry holds v, whose
"PM25" key is gone, and whose other keys are untouched; any value
originally under "PM2.5" is discarded (overwritten by v). -/
theorem rename_pm25_overwrites (r : Record) (v : ℚ)
    (hnodup : (r.map Prod.fst).Nodup) (hv : getKey "PM25" r = some v) :
    getKey "PM2.5" (rename_pm25 r) = some v ∧
    getKey "PM25" (rename_pm25 r) = none ∧
    countKey "PM2.5" (rename_pm25 r) = 1 ∧
    ∀ k, k ≠ "PM25" → k ≠ "PM2.5" → getKey k (rename_pm25 r) = getKey k r := by
  unfold rename_pm25
  rw [hv]
  refine ⟨getKey_setKey_self _ _ _, ?_, ?_, ?_⟩
  · rw [getKey_setKey_ne _ _ _ _ (by decide), getKey_eraseKey_self]
  · rw [countKey_setKey_self, countKey_eraseKey_ne _ _ _ (by decide)]
    have := countKey_le_one_of_nodup "PM2.5" r hnodup
    omega
  · intro k hk1 hk2
    rw [getKey_setKey_ne _ _ _ _ hk2, getKey_eraseKey_ne _ _ _ hk1]

/-- Witness for C9 at the record
[("PM2.5", 99), ("PM25", 40), ("PM10", 60), ("NH3", 10), ("CO", 2)]. -/
theorem rename_pm25_overwrites_witness :
    getKey "PM2.5"
        (rename_pm25 [("PM2.5", 99), ("PM25", 40), ("PM10", 60), ("NH3", 10), ("CO", 2)]) =
      some 40 ∧
    getKey "PM25"
        (rename_pm25 [("PM2.5", 99), ("PM25", 40), ("PM10", 60), ("NH3", 10), ("CO", 2)]) =
      none ∧
    countKey "PM2.5"
        (rename_pm25 [("PM2.5", 99), ("PM25", 40), ("PM10", 60), ("NH3", 10), ("CO", 2)]) =
      1 :=
  ⟨(rename_pm25_overwrites _ 40 (by decide) (by decide)).1,
   (rename_pm25_overwrites _ 40 (by decide) (by decide)).2.1,
   (rename_pm25_overwrites _ 40 (by decide) (by decide)).2.2.1⟩

/-- C7: every failure of the read path — no open connection, timeout,
UTF-8 decode error, malformed JSON, non-object JSON, or a record failing
validation — makes the prediction query return the one error
`sensorReadFailed`, with no payload and nothing distinguishing the
failing stage. -/
theorem read_failure_collapses :
    (∀ model ser, readPathFails ser = true →
      (get_aqi_prediction model ser).1 = Except.error ApiError.sensorReadFailed) ∧
    readPathFails none = true ∧
    (∀ rest, readPathFails (some (LineRead.timeout :: rest)) = true) ∧
    (∀ rest, readPathFails (some (LineRead.decodeError :: rest)) = true) ∧
    (∀ rest, readPathFails (some (LineRead.malformed :: rest)) = true) ∧
    (∀ rest, readPathFails (some (LineRead.nonObject :: rest)) = true) ∧
    (∀ data rest, validate_sensor_data (rename_pm25 data) = false →
      readPathFails (some (LineRead.parsed data :: rest)) = true) := by
  refine ⟨error_of_readPathFails, rfl, fun _ => rfl, fun _ => rfl, fun _ => rfl,
    fun _ => rfl, ?_⟩
  intro data rest h
  simp [readPathFails, lineFails, h]

/-- Witness for C7: a timed-out read with no model loaded. -/
theorem read_failure_collapses_witness :
    (get_aqi_prediction none (some [LineRead.timeout])).1 =
      Except.error ApiError.sensorReadFailed :=
  read_failure_collapses.1 none (some [LineRead.timeout]) (by decide)

/-- C4: a record missing any of the required features PM2.5, PM10, NH3,
CO is invalid whatever its other fields hold; erasing an optional display
field (temp, hum) from a valid record never makes it invalid. -/
theorem validate_required_and_optional :
    (∀ (r : Record) (f : String), f ∈ REQUIRED_FEATURES → getKey f r = none →
      validate_sensor_data r = false) ∧
    (∀ r : Record, validate_sensor_data r = true →
      validate_sensor_data (eraseKey "temp" r) = true ∧
      validate_sensor_data (eraseKey "hum" r) = true) := by
  constructor
  · intro r f hf hnone
    fin_cases hf <;>
      simp [validate_sensor_data, RANGES, checkField, REQUIRED_FEATURES, hnone]
  · intro r h
    simp only [validate_sensor_data, RANGES, List.all_cons, List.all_nil, Bool.and_true,
      Bool.and_eq_true] at h ⊢
    obtain ⟨h1, h2, h3, h4, h5, h6⟩ := h
    constructor
    · refine ⟨?_, ?_, ?_, ?_, ?_, ?_⟩ <;>
        first
          | (rw [checkField_eraseKey_ne _ _ _ _ (by decide)]; assumption)
          | (unfold checkField; rw [getKey_eraseKey_self]; decide)
    · refine ⟨?_, ?_, ?_, ?_, ?_, ?_⟩ <;>
        first
          | (rw [checkField_eraseKey_ne _ _ _ _ (by decide)]; assumption)
          | (unfold checkField; rw [getKey_eraseKey_self]; decide)

/-- Witness for C4: the record [("PM10", 60), ("NH3", 10), ("CO", 2)]
misses PM2.5 and is invalid; erasing temp and hum from the valid record
[("PM2.5", 40), ("PM10", 60), ("NH3", 10), ("CO", 2), ("temp", 25),
("hum", 50)] keeps it valid. -/
theorem validate_required_and_optional_witness :
    validate_sensor_data [("PM10", 60), ("NH3", 10), ("CO", 2)] = false ∧
    validate_sensor_data
        (eraseKey "temp"
          [("PM2.5", 40), ("PM10", 60), ("NH3", 10), ("CO", 2), ("temp", 25), ("hum", 50)]) =
      true :=
  ⟨validate_required_and_optional.1 _ "PM2.5" (by decide) (by decide),
   (validate_required_and_optional.2
      [("PM2.5", 40), ("PM10", 60), ("NH3", 10), ("CO", 2), ("temp", 25), ("hum", 50)]
      (by decide)).1⟩

/-- C3: for every entry (f, min, max) of the range table, a record that
passes every other entry's check and whose value for f is exactly min
(resp. max) is valid, while min - 1 (resp. max + 1) makes it invalid. -/
theorem validate_boundary (f : String) (mn mx : ℚ) (r : Record)
    (hmem : (f, mn, mx) ∈ RANGES)
    (hrest : ∀ e ∈ RANGES, e.1 ≠ f → checkField r e = true) :
    validate_sensor_data (setKey f mn r) = true ∧
    validate_sensor_data (setKey f mx r) = true ∧
    validate_sensor_data (setKey f (mn - 1) r) = false ∧
    validate_sensor_data (setKey f (mx + 1) r) = false := by
  fin_cases hmem <;>
    refine ⟨?_, ?_, ?_, ?_⟩ <;>
      norm_num [validate_sensor_data, RANGES, List.all_cons, List.all_nil,
        checkField_setKey_self] <;>
      refine ⟨?_, ?_, ?_, ?_, ?_⟩ <;>
      · rw [checkField_setKey_ne _ _ _ _ _ (by decide)]
        exact hrest _ (by decide) (by decide)

/-- Witness for C3 at the NH3 entry over the otherwise-valid base record
[("PM2.5", 1), ("PM10", 1), ("CO", 1)]. -/
theorem validate_boundary_witness :
    validate_sensor_data (setKey "NH3" 0 [("PM2.5", 1), ("PM10", 1), ("CO", 1)]) = true ∧
    validate_sensor_data (setKey "NH3" 500 [("PM2.5", 1), ("PM10", 1), ("CO", 1)]) = true ∧
    validate_sensor_data (setKey "NH3" (0 - 1) [("PM2.5", 1), ("PM10", 1), ("CO", 1)]) = false ∧
    validate_sensor_data (setKey "NH3" (500 + 1) [("PM2.5", 1), ("PM10", 1), ("CO", 1)]) =
      false :=
  validate_boundary "NH3" 0 500 [("PM2.5", 1), ("PM10", 1), ("CO", 1)]
    (by decide) (by decide)

/-- C1 (amended): if the model's recorded feature names differ from
`REQUIRED_FEATURES`, startup discards the model reference, every health
query reports `model_loaded = false`, and every subsequent prediction
query fails — with `modelUnavailable` (no prediction call can be
attempted: no model is held) when the sensor read succeeds, and with the
sensor-read error when the sensor read fails. -/
theorem feature_mismatch_disables_model (m : Model)
    (hm : m.feature_names_in ≠ REQUIRED_FEATURES) :
    load_model (some m) = none ∧
    (∀ ser, (health_check ser (load_model (some m))).model_loaded = false) ∧
    (∀ ser, readPathFails ser = false →
      (get_aqi_prediction (load_model (some m)) ser).1 =
        Except.error ApiError.modelUnavailable) ∧
    (∀ ser, readPathFails ser = true →
      (get_aqi_prediction (load_model (some m)) ser).1 =
        Except.error ApiError.sensorReadFailed) := by
  have hload : load_model (some m) = none := by simp [load_model, hm]
  refine ⟨hload, fun ser => by rw [hload]; rfl, fun ser h => ?_, fun ser h => ?_⟩
  · rw [hload]
    exact model_none_unavailable ser h
  · rw [hload]
    exact error_of_readPathFails none ser h

/-- Witness for C1 (amended) at `badModel`, with a health query over a
closed connection and a prediction query whose sensor read succeeds. -/
theorem feature_mismatch_disables_model_witness :
    load_model (some badModel) = none ∧
    (health_check none (load_model (some badModel))).model_loaded = false ∧
    (get_aqi_prediction (load_model (some badModel))
        (some [LineRead.parsed [("PM25", 10), ("PM10", 20), ("NH3", 5), ("CO", 1)]])).1 =
      Except.error ApiError.modelUnavailable :=
  ⟨(feature_mismatch_disables_model badModel (by decide)).1,
   (feature_mismatch_disables_model badModel (by decide)).2.1 none,
   (feature_mismatch_disables_model badModel (by decide)).2.2.1
     (some [LineRead.parsed [("PM25", 10), ("PM10", 20), ("NH3", 5), ("CO", 1)]])
     (by decide)⟩

/-- Counterexample to C1 as stated: with the mismatched `badModel` the
model reference is indeed discarded and health reports
`model_loaded = false`, but a prediction query whose sensor read fails
(here: a timeout) fails with the sensor-read error, not with
`modelUnavailable` — so not every subsequent prediction query fails with
`ModelUnavailable`. -/
theorem feature_mismatch_query_counterexample :
    badModel.feature_names_in ≠ REQUIRED_FEATURES ∧
    (health_check none (load_model (some badModel))).model_loaded = false ∧
    (get_aqi_prediction (load_model (some badModel)) (some [LineRead.timeout])).1 =
      Except.error ApiError.sensorReadFailed ∧
    (Except.error ApiError.sensorReadFailed : Except ApiError Response) ≠
      Except.error ApiError.modelUnavailable := by
  refine ⟨by decide, by with_unfolding_all rfl, by with_unfolding_all rfl, by simp⟩

/-- C6 (amended): a successful prediction query returns the AQI estimate
rounded to 2 decimal places, the status bucket computed from the
(unrounded) estimate, and an echo of the four required input features
followed by entries for both optional display fields temp and hum —
entries that carry the record's value when present and `none` (JSON
null) when absent, rather than being omitted. -/
theorem prediction_success_response (m : Model) (data : Record) (rest : List LineRead)
    (vec : List ℚ)
    (hval : validate_sensor_data (rename_pm25 data) = true)
    (hvec : input_data (rename_pm25 data) REQUIRED_FEATURES = some vec) :
    (get_aqi_prediction (some m) (some (LineRead.parsed data :: rest))).1 =
      Except.ok
        { aqi := round2 (m.predict vec)
          status := get_aqi_status (m.predict vec)
          sensor_data :=
            (REQUIRED_FEATURES.zip vec).map (fun p => (p.1, some p.2))
              ++ [("temp", getKey "temp" (rename_pm25 data)),
                  ("hum", getKey "hum" (rename_pm25 data))] } := by
  simp [get_aqi_prediction, read_arduino_data, hval, hvec]

/-- Witness for C6 (amended): the stub model on
{"PM25": 10, "PM10": 20, "NH3": 5, "CO": 1}. -/
theorem prediction_success_response_witness :
    (get_aqi_prediction (some stubModel)
        (some [LineRead.parsed [("PM25", 10), ("PM10", 20), ("NH3", 5), ("CO", 1)]])).1 =
      Except.ok
        { aqi := round2 (stubModel.predict [10, 20, 5, 1])
          status := get_aqi_status (stubModel.predict [10, 20, 5, 1])
          sensor_data :=
            (REQUIRED_FEATURES.zip [10, 20, 5, 1]).map (fun p => (p.1, some p.2))
              ++ [("temp",
                    getKey "temp"
                      (rename_pm25 [("PM25", 10), ("PM10", 20), ("NH3", 5), ("CO", 1)])),
                  ("hum",
                    getKey "hum"
                      (rename_pm25 [("PM25", 10), ("PM10", 20), ("NH3", 5), ("CO", 1)]))] } :=
  prediction_success_response stubModel
    [("PM25", 10), ("PM10", 20), ("NH3", 5), ("CO", 1)] [] [10, 20, 5, 1]
    (by decide) (by decide)

/-- Counterexample to C6 as stated: a successful run whose sensor record
has no temp and no hum still produces an echo containing a "temp" entry
(and a "hum" entry) with value `none` — absent optional fields do appear
in the echo. -/
theorem echo_includes_absent_optional :
    (get_aqi_prediction (some stubModel)
        (some [LineRead.parsed [("PM25", 10), ("PM10", 20), ("NH3", 5), ("CO", 1)]])).1 =
      Except.ok
        { aqi := 42
          status := "Good"
          sensor_data := [("PM2.5", some 10), ("PM10", some 20), ("NH3", some 5),
            ("CO", some 1), ("temp", none), ("hum", none)] } ∧
    getKey "temp" (rename_pm25 [("PM25", 10), ("PM10", 20), ("NH3", 5), ("CO", 1)]) = none ∧
    getKey "hum" (rename_pm25 [("PM25", 10), ("PM10", 20), ("NH3", 5), ("CO", 1)]) = none ∧
    ("temp", (none : Option ℚ)) ∈
      ([("PM2.5", some 10), ("PM10", some 20), ("NH3", some 5),
        ("CO", some 1), ("temp", none), ("hum", none)] : List (String × Option ℚ)) := by
  refine ⟨by with_unfolding_all rfl, by decide, by decide, by decide⟩

end AirQuality
